import Mathlib

set_option linter.unusedVariables false

/-!
Shallow embedding of the libGPUInfo core pipeline (src/source/libgpuinfo.cpp and
libgpuinfo.hpp): the model database and metric resolver, the post-r21 tag-value
property decoder, the pre-r21 fixed-layout property path, and the driver dialect
version negotiation.  Machine integers are modelled as Nat, with an explicit
mod 2^32 (M32) at the points where the C code narrows a wider value into a
32-bit container.
-/

namespace libgpuinfo

/-- Modulus of a 32-bit unsigned machine integer. -/
def M32 : Nat := 2 ^ 32

/-- One row of the model database, struct product_entry in libgpuinfo.cpp.
The three behaviour functions take (core_count, core_features,
thread_features) and return a per-core rate or engine count. -/
structure product_entry where
  id : Nat
  mask : Nat
  min_cores : Nat
  name : String
  architecture : String
  fp32_fmas_per_engine : Nat
  get_num_texels : Nat → Nat → Nat → Nat
  get_num_pixels : Nat → Nat → Nat → Nat
  get_num_exec_engines : Nat → Nat → Nat → Nat

/-- Legacy 16-bit identifier mask, MASK_OLD in libgpuinfo.cpp. -/
def MASK_OLD : Nat := 0xFFFF

/-- Modern sparse identifier mask, MASK_NEW in libgpuinfo.cpp. -/
def MASK_NEW : Nat := 0xF00F

/-- Constant behaviour function returning 1. -/
def get_num_1 (core_count core_features thread_features : Nat) : Nat := 1

/-- Constant behaviour function returning 2. -/
def get_num_2 (core_count core_features thread_features : Nat) : Nat := 2

/-- Constant behaviour function returning 3. -/
def get_num_3 (core_count core_features thread_features : Nat) : Nat := 3

/-- Constant behaviour function returning 4. -/
def get_num_4 (core_count core_features thread_features : Nat) : Nat := 4

/-- Constant behaviour function returning 8. -/
def get_num_8 (core_count core_features thread_features : Nat) : Nat := 8

/-- Engine count formula for Mali-G31. -/
def get_num_ee_g31 (core_count core_features thread_features : Nat) : Nat :=
  if core_count = 1 ∧ thread_features &&& 0xFFFF = 0x2000 then 1 else 2

/-- Engine count formula for Mali-G51. -/
def get_num_ee_g51 (core_count core_features thread_features : Nat) : Nat :=
  if core_count = 1 ∧ thread_features &&& 0xFFFF = 0x2000 then 1 else 3

/-- Engine count formula for Mali-G52: low nibble of the core features register. -/
def get_num_ee_g52 (core_count core_features thread_features : Nat) : Nat :=
  core_features &&& 0xF

/-- Engine count formula for Mali-G310 and Mali-G510. -/
def get_num_ee_g310_g510 (core_count core_features thread_features : Nat) : Nat :=
  if core_features &&& 0xF ≤ 1 then 1 else 2

/-- The shipped model database, PRODUCT_VERSIONS in libgpuinfo.cpp, in its
declaration order. -/
def PRODUCT_VERSIONS : List product_entry := [
  ⟨0x6956, MASK_OLD,  1, "Mali-T600", "Midgard",  4, get_num_1, get_num_1, get_num_2⟩,
  ⟨0x0620, MASK_OLD,  1, "Mali-T620", "Midgard",  4, get_num_1, get_num_1, get_num_2⟩,
  ⟨0x0720, MASK_OLD,  1, "Mali-T720", "Midgard",  4, get_num_1, get_num_1, get_num_1⟩,
  ⟨0x0750, MASK_OLD,  1, "Mali-T760", "Midgard",  4, get_num_1, get_num_1, get_num_2⟩,
  ⟨0x0820, MASK_OLD,  1, "Mali-T820", "Midgard",  4, get_num_1, get_num_1, get_num_1⟩,
  ⟨0x0830, MASK_OLD,  1, "Mali-T830", "Midgard",  4, get_num_1, get_num_1, get_num_2⟩,
  ⟨0x0860, MASK_OLD,  1, "Mali-T860", "Midgard",  4, get_num_1, get_num_1, get_num_2⟩,
  ⟨0x0880, MASK_OLD,  1, "Mali-T880", "Midgard",  4, get_num_1, get_num_1, get_num_3⟩,
  ⟨0x6000, MASK_NEW,  1, "Mali-G71",  "Bifrost",  4, get_num_1, get_num_1, get_num_3⟩,
  ⟨0x6001, MASK_NEW,  1, "Mali-G72",  "Bifrost",  4, get_num_1, get_num_1, get_num_3⟩,
  ⟨0x7000, MASK_NEW,  1, "Mali-G51",  "Bifrost",  4, get_num_2, get_num_2, get_num_ee_g51⟩,
  ⟨0x7001, MASK_NEW,  1, "Mali-G76",  "Bifrost",  8, get_num_2, get_num_2, get_num_3⟩,
  ⟨0x7002, MASK_NEW,  1, "Mali-G52",  "Bifrost",  8, get_num_2, get_num_2, get_num_ee_g52⟩,
  ⟨0x7003, MASK_NEW,  1, "Mali-G31",  "Bifrost",  4, get_num_2, get_num_2, get_num_ee_g31⟩,
  ⟨0x9000, MASK_NEW,  1, "Mali-G77",  "Valhall", 16, get_num_4, get_num_2, get_num_2⟩,
  ⟨0x9001, MASK_NEW,  1, "Mali-G57",  "Valhall", 16, get_num_4, get_num_2, get_num_2⟩,
  ⟨0x9003, MASK_NEW,  1, "Mali-G57",  "Valhall", 16, get_num_4, get_num_2, get_num_2⟩,
  ⟨0x9004, MASK_NEW,  1, "Mali-G68",  "Valhall", 16, get_num_4, get_num_2, get_num_2⟩,
  ⟨0x9002, MASK_NEW,  1, "Mali-G78",  "Valhall", 16, get_num_4, get_num_2, get_num_2⟩,
  ⟨0x9005, MASK_NEW,  1, "Mali-G78AE", "Valhall", 16, get_num_4, get_num_2, get_num_2⟩,
  ⟨0xa002, MASK_NEW,  1, "Mali-G710", "Valhall", 32, get_num_8, get_num_4, get_num_2⟩,
  ⟨0xa007, MASK_NEW,  1, "Mali-G610", "Valhall", 32, get_num_8, get_num_4, get_num_2⟩,
  ⟨0xa003, MASK_NEW,  1, "Mali-G510", "Valhall", 32, get_num_8, get_num_4, get_num_ee_g310_g510⟩,
  ⟨0xa004, MASK_NEW,  1, "Mali-G310", "Valhall", 32, get_num_8, get_num_4, get_num_ee_g310_g510⟩,
  ⟨0xb002, MASK_NEW, 10, "Immortalis-G715", "Valhall", 64, get_num_8, get_num_4, get_num_2⟩,
  ⟨0xb003, MASK_NEW, 10, "Immortalis-G715", "Valhall", 64, get_num_8, get_num_4, get_num_2⟩,
  ⟨0xb002, MASK_NEW,  7, "Mali-G715", "Valhall", 64, get_num_8, get_num_4, get_num_2⟩,
  ⟨0xb003, MASK_NEW,  7, "Mali-G715", "Valhall", 64, get_num_8, get_num_4, get_num_2⟩,
  ⟨0xb002, MASK_NEW,  1, "Mali-G615", "Valhall", 64, get_num_8, get_num_4, get_num_2⟩,
  ⟨0xb003, MASK_NEW,  1, "Mali-G615", "Valhall", 64, get_num_8, get_num_4, get_num_2⟩]

/-- Scan loop of get_gpu_id: the first entry whose mask/pattern matches wins
and the raw identifier is normalized with that entry mask; with no match the
raw identifier is returned unchanged. -/
def get_gpu_id_go (gpu_id : Nat) : List product_entry → Nat
  | [] => gpu_id
  | e :: es =>
    if gpu_id &&& e.mask = e.id then gpu_id &&& e.mask else get_gpu_id_go gpu_id es

/-- Identifier normalization, get_gpu_id in libgpuinfo.cpp. -/
def get_gpu_id (gpu_id : Nat) : Nat :=
  get_gpu_id_go gpu_id PRODUCT_VERSIONS

/-- Scan loop of get_gpu_name: pattern/mask match plus minimum core count. -/
def get_gpu_name_go (gpu_id core_count : Nat) : List product_entry → String
  | [] => "Unknown gpu_id"
  | e :: es =>
    if gpu_id &&& e.mask = e.id ∧ e.min_cores ≤ core_count then e.name
    else get_gpu_name_go gpu_id core_count es

/-- Product name lookup, get_gpu_name in libgpuinfo.cpp. -/
def get_gpu_name (gpu_id core_count : Nat) : String :=
  get_gpu_name_go gpu_id core_count PRODUCT_VERSIONS

/-- Scan loop of get_architecture_name: pattern/mask match only. -/
def get_architecture_name_go (gpu_id : Nat) : List product_entry → String
  | [] => "Unknown gpu_id"
  | e :: es =>
    if gpu_id &&& e.mask = e.id then e.architecture
    else get_architecture_name_go gpu_id es

/-- Architecture name lookup, get_architecture_name in libgpuinfo.cpp. -/
def get_architecture_name (gpu_id : Nat) : String :=
  get_architecture_name_go gpu_id PRODUCT_VERSIONS

/-- Scan loop of get_num_exec_engines: first full match dispatches to the
entry behaviour function; with no match the engine count is 0. -/
def get_num_exec_engines_go (gpu_id core_count core_features thread_features : Nat) :
    List product_entry → Nat
  | [] => 0
  | e :: es =>
    if gpu_id &&& e.mask = e.id ∧ e.min_cores ≤ core_count then
      e.get_num_exec_engines core_count core_features thread_features
    else get_num_exec_engines_go gpu_id core_count core_features thread_features es

/-- Execution engine count resolver, get_num_exec_engines in libgpuinfo.cpp. -/
def get_num_exec_engines (gpu_id core_count core_features thread_features : Nat) : Nat :=
  get_num_exec_engines_go gpu_id core_count core_features thread_features PRODUCT_VERSIONS

/-- Scan loop of get_num_fp32_fmas: per-engine FMA constant times the entry
engine count. -/
def get_num_fp32_fmas_go (gpu_id core_count core_features thread_features : Nat) :
    List product_entry → Nat
  | [] => 0
  | e :: es =>
    if gpu_id &&& e.mask = e.id ∧ e.min_cores ≤ core_count then
      e.fp32_fmas_per_engine * e.get_num_exec_engines core_count core_features thread_features
    else get_num_fp32_fmas_go gpu_id core_count core_features thread_features es

/-- FP32 FMA rate resolver, get_num_fp32_fmas in libgpuinfo.cpp. -/
def get_num_fp32_fmas (gpu_id core_count core_features thread_features : Nat) : Nat :=
  get_num_fp32_fmas_go gpu_id core_count core_features thread_features PRODUCT_VERSIONS

/-- Scan loop of get_num_texels. -/
def get_num_texels_go (gpu_id core_count core_features thread_features : Nat) :
    List product_entry → Nat
  | [] => 0
  | e :: es =>
    if gpu_id &&& e.mask = e.id ∧ e.min_cores ≤ core_count then
      e.get_num_texels core_count core_features thread_features
    else get_num_texels_go gpu_id core_count core_features thread_features es

/-- Texel rate resolver, get_num_texels in libgpuinfo.cpp. -/
def get_num_texels (gpu_id core_count core_features thread_features : Nat) : Nat :=
  get_num_texels_go gpu_id core_count core_features thread_features PRODUCT_VERSIONS

/-- Scan loop of get_num_pixels. -/
def get_num_pixels_go (gpu_id core_count core_features thread_features : Nat) :
    List product_entry → Nat
  | [] => 0
  | e :: es =>
    if gpu_id &&& e.mask = e.id ∧ e.min_cores ≤ core_count then
      e.get_num_pixels core_count core_features thread_features
    else get_num_pixels_go gpu_id core_count core_features thread_features es

/-- Pixel rate resolver, get_num_pixels in libgpuinfo.cpp. -/
def get_num_pixels (gpu_id core_count core_features thread_features : Nat) : Nat :=
  get_num_pixels_go gpu_id core_count core_features thread_features PRODUCT_VERSIONS

/-- Result record of a query, struct gpuinfo in libgpuinfo.hpp.  Every numeric
field is a 32-bit unsigned integer in the source, so values stored here are
kept below M32 by the writers. -/
structure gpuinfo where
  gpu_name : String := ""
  architecture_name : String := ""
  gpu_id : Nat := 0
  num_shader_cores : Nat := 0
  num_l2_slices : Nat := 0
  num_l2_bytes : Nat := 0
  num_bus_bits : Nat := 0
  num_exec_engines : Nat := 0
  num_fp32_fmas_per_cy : Nat := 0
  num_fp16_fmas_per_cy : Nat := 0
  num_texels_per_cy : Nat := 0
  num_pixels_per_cy : Nat := 0
deriving DecidableEq

/-- Population count of the low 32 bits, one bit per step; fuel is the bit
count.  Models the __builtin_popcount call, whose unsigned int parameter
truncates a wider argument to 32 bits. -/
def popcountAux : Nat → Nat → Nat
  | 0, _ => 0
  | k + 1, n => n % 2 + popcountAux k (n / 2)

/-- Population count as computed by __builtin_popcount on the low 32 bits. -/
def popcount32 (n : Nat) : Nat := popcountAux 32 (n % M32)

/-- Width in bytes selected by a gpuprop_size code, the switch in
prop_decoder::next: 0 is uint8, 1 is uint16, 2 is uint32, 3 is uint64. -/
def propWidth : Nat → Nat
  | 0 => 1
  | 1 => 2
  | 2 => 4
  | _ => 8

/-- Little-endian value assembled by the loop in prop_decoder::read_bytes,
which ORs each byte shifted into its lane. -/
def leBytes : List Nat → Nat
  | [] => 0
  | b :: bs => b ||| (leBytes bs <<< 8)

/-- Bounds-checked read of n little-endian bytes, prop_decoder::read_bytes:
when fewer than n bytes remain the read fails (the C code clears the success
flag), otherwise it returns the assembled value and advances the cursor. -/
def read_bytes (n : Nat) (buf : List Nat) : Option (Nat × List Nat) :=
  if buf.length < n then none
  else some (leBytes (buf.take n), buf.drop n)

/-- One record of the tag-value stream, prop_decoder::next combined with
prop_decoder::to_prop_metadata: a 4-byte little-endian header whose low 2
bits select the value width and whose upper 30 bits are the property id,
followed by the value of that width.  The id is reduced mod 256 because
to_prop_metadata casts it into gpuprop_code, an enum with underlying type
uint8_t. -/
def next (buf : List Nat) : Option ((Nat × Nat) × List Nat) :=
  match read_bytes 4 buf with
  | none => none
  | some (header, r1) =>
    match read_bytes (propWidth (header &&& 0b11)) r1 with
    | none => none
    | some (v, r2) => some (((header >>> 2) % 256, v), r2)

/-- Decode loop of prop_decoder::decode seen as a parser: while bytes remain,
read one record; any failed read aborts the whole decode.  Fuel-indexed so the
function is structurally recursive; each successful record consumes at least
5 bytes, so fuel equal to the buffer length always suffices. -/
def parsePropsAux : Nat → List Nat → Option (List (Nat × Nat))
  | _, [] => some []
  | 0, _ :: _ => none
  | k + 1, b :: bs =>
    match next (b :: bs) with
    | none => none
    | some (p, rest) =>
      match parsePropsAux k rest with
      | none => none
      | some ps => some (p :: ps)

/-- The record stream read by the decode loop of prop_decoder::decode. -/
def parseProps (buf : List Nat) : Option (List (Nat × Nat)) :=
  parsePropsAux buf.length buf

/-- Truncation predicate in the words of the specification: the stream is
truncated when, at some record boundary, fewer than 4 header bytes remain or
the width declared by the header exceeds the remaining bytes. -/
def truncatedAux : Nat → List Nat → Bool
  | _, [] => false
  | 0, _ :: _ => true
  | k + 1, b :: bs =>
    if (b :: bs).length < 4 then true
    else
      let w := propWidth (leBytes ((b :: bs).take 4) &&& 0b11)
      if (b :: bs).length < 4 + w then true
      else truncatedAux k ((b :: bs).drop (4 + w))

/-- Whole-stream truncation predicate. -/
def truncated (buf : List Nat) : Bool := truncatedAux buf.length buf

/-- Switch body of the decode loop in prop_decoder::decode: one decoded
(id, value) record updates the accumulated gpuinfo fields and the two local
raw feature words (state is (info, raw_core_features, raw_thread_features)).
Wire ids: 1 product id, 14 L2 log2 cache size, 15 L2 slice count, 29 raw L2
features, 30 raw core features, 59 raw thread features, 64-67 coherency group
masks 0-3; every other id is discarded. -/
def decode_step (s : gpuinfo × Nat × Nat) (p : Nat × Nat) : gpuinfo × Nat × Nat :=
  let info := s.1
  let rcf := s.2.1
  let rtf := s.2.2
  let id := p.1
  let value := p.2
  if id = 1 then ({ info with gpu_id := value % M32 }, rcf, rtf)
  else if id = 14 then ({ info with num_l2_bytes := (1 <<< value) % M32 }, rcf, rtf)
  else if id = 15 then ({ info with num_l2_slices := value % M32 }, rcf, rtf)
  else if id = 29 then
    ({ info with num_bus_bits := (1 <<< ((value >>> 24) &&& 0xFF)) % M32 }, rcf, rtf)
  else if id = 30 then (info, value, rtf)
  else if id = 59 then (info, rcf, value)
  else if id = 64 ∨ id = 65 ∨ id = 66 ∨ id = 67 then
    ({ info with num_shader_cores := (info.num_shader_cores + popcount32 value) % M32 },
      rcf, rtf)
  else (info, rcf, rtf)

/-- Field accumulation over the whole decoded record stream, starting from the
zero-initialised gpuinfo and zero raw feature words. -/
def decode_fields (ps : List (Nat × Nat)) : gpuinfo × Nat × Nat :=
  ps.foldl decode_step ({}, 0, 0)

/-- Execution engine count resolved after the decode loop, as in
prop_decoder::decode; the uint64 raw feature words narrow to the uint32
parameters of get_num_exec_engines. -/
def resolved_engines (ps : List (Nat × Nat)) : Nat :=
  let s := decode_fields ps
  get_num_exec_engines s.1.gpu_id s.1.num_shader_cores (s.2.1 % M32) (s.2.2 % M32)

/-- Derived per-core rates written by prop_decoder::decode after the engine
count check passed. -/
def decode_finalize (ps : List (Nat × Nat)) : gpuinfo :=
  let s := decode_fields ps
  let cf := s.2.1 % M32
  let tf := s.2.2 % M32
  let info := s.1
  let fp32 := get_num_fp32_fmas info.gpu_id info.num_shader_cores cf tf
  { info with
    num_exec_engines := resolved_engines ps,
    num_fp32_fmas_per_cy := fp32,
    num_fp16_fmas_per_cy := (fp32 * 2) % M32,
    num_texels_per_cy := get_num_texels info.gpu_id info.num_shader_cores cf tf,
    num_pixels_per_cy := get_num_pixels info.gpu_id info.num_shader_cores cf tf }

/-- Whole decoder, prop_decoder::decode: parse the stream, accumulate fields,
resolve the engine count and fail when it is zero, then fill in the derived
per-core rates.  Returns none exactly where the C function returns false. -/
def decode (buf : List Nat) : Option gpuinfo :=
  match parseProps buf with
  | none => none
  | some ps =>
    if resolved_engines ps = 0 then none
    else some (decode_finalize ps)

/-- Size of the coherent group descriptor array in the pre-r21 fixed-layout
property structure, base_max_coherent_groups in libgpuinfo.cpp. -/
def base_max_coherent_groups : Nat := 16

/-- Indices i for which the shader-core summation loop of
instance::init_props_pre_r21 dereferences coherency_info.group[i]: the loop
runs i from 0 to the kernel-reported num_core_groups, with no clamp. -/
def coherency_loop_reads (num_core_groups : Nat) : List Nat :=
  List.range num_core_groups

/-- Coherent group descriptor of the pre-r21 interface,
kbase_pre_r21::uk_gpuprops_t::gpu_props::coherent_group_info::coherent_group. -/
structure coherent_group where
  core_mask : Nat
  num_cores : Nat

/-- Coherency block of the pre-r21 fixed-layout property structure.  The C
array group[] has base_max_coherent_groups (16) slots; the function models the
bytes the loop would read at any index, so slots at indices 16 and above stand
for whatever memory happens to follow the structure. -/
structure coherent_group_info where
  num_groups : Nat
  num_core_groups : Nat
  coherency : Nat
  group : Nat → coherent_group

/-- Core properties consumed from the pre-r21 structure. -/
structure uk_gpuprops_core where
  product_id : Nat

/-- L2 properties consumed from the pre-r21 structure. -/
structure uk_gpuprops_l2 where
  log2_line_size : Nat
  log2_cache_size : Nat
  num_l2_slices : Nat

/-- Raw register words consumed from (or relevant to) the pre-r21 structure. -/
structure uk_gpuprops_raw where
  l2_features : Nat
  thread_features : Nat

/-- The pre-r21 fixed-layout property structure,
kbase_pre_r21::uk_gpuprops_t::gpu_props, restricted to the members the
pipeline reads. -/
structure uk_gpuprops where
  core_props : uk_gpuprops_core
  l2_props : uk_gpuprops_l2
  raw_props : uk_gpuprops_raw
  coherency_info : coherent_group_info

/-- Shader core count computed by the summation loop of
instance::init_props_pre_r21: population count of each visited group mask
(truncated to 32 bits by __builtin_popcount), accumulated in a uint32. -/
def core_group_sum (ci : coherent_group_info) : Nat :=
  (coherency_loop_reads ci.num_core_groups).foldl
    (fun acc i => (acc + popcount32 (ci.group i).core_mask) % M32) 0

/-- Property extraction of instance::init_props_pre_r21 after a successful
ioctl: fields are read directly from the fixed-layout structure, and every
resolver is called with both raw feature words fixed at literal zero. -/
def init_props_pre_r21 (props : uk_gpuprops) : gpuinfo :=
  let gpu_id := props.core_props.product_id % M32
  let cores := core_group_sum props.coherency_info
  { gpu_name := "",
    architecture_name := "",
    gpu_id := gpu_id,
    num_shader_cores := cores,
    num_l2_slices := props.l2_props.num_l2_slices % M32,
    num_l2_bytes := (1 <<< props.l2_props.log2_cache_size) % M32,
    num_bus_bits := (1 <<< ((props.raw_props.l2_features % M32) >>> 24)) % M32,
    num_exec_engines := get_num_exec_engines gpu_id cores 0 0,
    num_fp32_fmas_per_cy := get_num_fp32_fmas gpu_id cores 0 0,
    num_fp16_fmas_per_cy := (get_num_fp32_fmas gpu_id cores 0 0 * 2) % M32,
    num_texels_per_cy := get_num_texels gpu_id cores 0 0,
    num_pixels_per_cy := get_num_pixels gpu_id cores 0 0 }

/-- Common cleanup of instance::init_props applied to a successfully
retrieved record: total L2 bytes, name, architecture and canonical id. -/
def init_props_cleanup (info : gpuinfo) : gpuinfo :=
  { info with
    num_l2_bytes := info.num_l2_bytes * info.num_l2_slices % M32,
    gpu_name := get_gpu_name info.gpu_id info.num_shader_cores,
    architecture_name := get_architecture_name info.gpu_id,
    gpu_id := get_gpu_id info.gpu_id }

/-- Pre-r21 branch of instance::init_props after a successful property ioctl:
the fixed-layout extraction never fails, so a record is always produced. -/
def init_props_pre (props : uk_gpuprops) : Option gpuinfo :=
  some (init_props_cleanup (init_props_pre_r21 props))

/-- Post-r21 branch of instance::init_props after the two ioctl phases
delivered the raw buffer: the record is produced only when the decoder
succeeds. -/
def init_props_post (buf : List Nat) : Option gpuinfo :=
  match decode buf with
  | none => none
  | some info => some (init_props_cleanup info)

/-- Version-check response carrying 16-bit major and minor fields, shared
shape of kbase_pre_r21::version_check_t and kbase_post_r21::version_check_t. -/
structure version_check_t where
  major : Nat
  minor : Nat

/-- Non-zero test on a version response, version_check_t::is_set. -/
def version_check_t.is_set (v : version_check_t) : Bool :=
  (v.major != 0) || (v.minor != 0)

/-- Version floor, function is_supported in libgpuinfo.cpp: accepted when the
major version exceeds 10, or equals 10 with minor at least 2. -/
def is_supported (major minor : Nat) : Bool :=
  decide (10 < major) || (decide (major = 10) && decide (2 ≤ minor))

/-- Driver dialect, enum iface_type in libgpuinfo.hpp. -/
inductive iface_type where
  | pre_r21
  | post_r21
deriving DecidableEq

/-- Responses the kernel returns to the three version probes, in the order
instance::check_version issues them: pre-r21, post-r21 job manager, post-r21
command stream front end. -/
structure probe_responses where
  pre_r21 : version_check_t
  post_r21_jm : version_check_t
  post_r21_csf : version_check_t

/-- Dialect negotiation, instance::check_version: probe pre-r21 first (a
non-zero response is authoritative and is gated by is_supported), then the
post-r21 job manager probe with the same gate, then the post-r21 command
stream probe whose mere non-zero response is accepted.  Returns the overall
verdict and the negotiated dialect. -/
def check_version (r : probe_responses) : Bool × iface_type :=
  if r.pre_r21.is_set then
    (is_supported r.pre_r21.major r.pre_r21.minor, iface_type.pre_r21)
  else if r.post_r21_jm.is_set then
    (is_supported r.post_r21_jm.major r.post_r21_jm.minor, iface_type.post_r21)
  else
    (r.post_r21_csf.is_set, iface_type.post_r21)

/-- Modelled from the spec: little-endian byte serialisation of a value into
a fixed number of bytes, used by the encoder side of the round-trip law. -/
def toLeBytes : Nat → Nat → List Nat
  | 0, _ => []
  | k + 1, v => v % 256 :: toLeBytes k (v / 256)

/-- Modelled from the spec: wire encoding of one (id, width code, value)
record with the documented header packing, the property id in the upper 30
header bits and the width code in the low 2 bits, all little-endian and
tightly packed. -/
def encodeRecord (id w v : Nat) : List Nat :=
  toLeBytes 4 ((id <<< 2) ||| w) ++ toLeBytes (propWidth w) v

/-- Modelled from the spec: wire encoding of a sequence of records. -/
def encodeStream : List (Nat × Nat × Nat) → List Nat
  | [] => []
  | (id, w, v) :: ts => encodeRecord id w v ++ encodeStream ts

/-- Well-formed triples for the round-trip law: the id fits in 30 bits, the
width code in 2 bits, and the value in the declared width. -/
def wellFormed (ts : List (Nat × Nat × Nat)) : Prop :=
  ∀ t ∈ ts, t.1 < 2 ^ 30 ∧ t.2.1 < 4 ∧ t.2.2 < 2 ^ (8 * propWidth t.2.1)

instance (ts : List (Nat × Nat × Nat)) : Decidable (wellFormed ts) :=
  List.decidableBAll _ ts

/-- Concrete pre-r21 property structure as a Mali-G52 class device reports
it: product id 0x7002, one coherent group holding 8 cores, 256 KiB of L2. -/
def g52_pre_props : uk_gpuprops :=
  { core_props := { product_id := 0x7002 },
    l2_props := { log2_line_size := 6, log2_cache_size := 18, num_l2_slices := 1 },
    raw_props := { l2_features := 0x05000000, thread_features := 0 },
    coherency_info :=
      { num_groups := 1,
        num_core_groups := 1,
        coherency := 0,
        group := fun i =>
          if i = 0 then { core_mask := 0xFF, num_cores := 8 }
          else { core_mask := 0, num_cores := 0 } } }

/-- Concrete post-r21 tag-value stream: property 61 (coherency group count)
with value 5, property 1 (product id) with value 0x9000, property 64
(coherency group mask 0) with value 3. -/
def group_count_5_stream : List Nat :=
  [0xF4, 0x00, 0x00, 0x00, 0x05,
   0x05, 0x00, 0x00, 0x00, 0x00, 0x90,
   0x00, 0x01, 0x00, 0x00, 0x03]

/-! Theorems about the model database and the metric resolver. -/

/-- C8: every descriptor of the shipped model database (all 30 entries) stores
a pre-masked pattern, and every stored mask is one of the two fixed mask
constants. -/
theorem product_versions_premasked :
    PRODUCT_VERSIONS.length = 30
    ∧ PRODUCT_VERSIONS.all (fun e => e.id &&& e.mask == e.id) = true
    ∧ PRODUCT_VERSIONS.all (fun e => e.mask == MASK_OLD || e.mask == MASK_NEW) = true :=
  ⟨by decide, by decide, by decide⟩

/-- Case analysis on the get_gpu_id scan: either no entry matches and the raw
identifier is returned, or the first matching entry yields its own pattern,
because the match condition equates the masked identifier with the pattern. -/
theorem get_gpu_id_go_cases (x : Nat) :
    ∀ l : List product_entry,
      get_gpu_id_go x l = x
      ∨ ∃ e, e ∈ l ∧ x &&& e.mask = e.id ∧ get_gpu_id_go x l = e.id
  | [] => Or.inl rfl
  | e :: es => by
    by_cases h : x &&& e.mask = e.id
    · exact Or.inr ⟨e, List.mem_cons_self e es, h, by simp [get_gpu_id_go, h]⟩
    · rcases get_gpu_id_go_cases x es with h2 | ⟨f, hf, hm, hres⟩
      · exact Or.inl (by simp [get_gpu_id_go, h, h2])
      · exact Or.inr ⟨f, List.mem_cons_of_mem e hf, hm,
          by simp [get_gpu_id_go, h, hres]⟩

/-- Every pattern stored in the database is a fixed point of identifier
normalization. -/
theorem get_gpu_id_fixed :
    PRODUCT_VERSIONS.all (fun e => get_gpu_id e.id == e.id) = true := by decide

/-- C7: identifier normalization computed by get_gpu_id, which uses
pattern/mask matching alone with no core-count gating, is idempotent on every
raw identifier. -/
theorem get_gpu_id_idempotent (x : Nat) :
    get_gpu_id (get_gpu_id x) = get_gpu_id x := by
  rcases get_gpu_id_go_cases x PRODUCT_VERSIONS with h | ⟨e, he, hm, hres⟩
  · have hx : get_gpu_id x = x := h
    rw [hx]
    exact hx
  · have hx : get_gpu_id x = e.id := hres
    rw [hx]
    have := List.all_eq_true.mp get_gpu_id_fixed e he
    exact eq_of_beq this

/-- The name scan returns the first entry satisfying the full match
predicate, in declaration order. -/
theorem get_gpu_name_go_eq (x c : Nat) :
    ∀ l : List product_entry,
      get_gpu_name_go x c l
        = match l.find? (fun e => decide (x &&& e.mask = e.id) && decide (e.min_cores ≤ c)) with
          | some e => e.name
          | none => "Unknown gpu_id"
  | [] => rfl
  | e :: es => by
    by_cases h : x &&& e.mask = e.id ∧ e.min_cores ≤ c
    · rw [List.find?_cons_of_pos _ (by simp [h.1, h.2])]
      simp [get_gpu_name_go, h]
    · rw [List.find?_cons_of_neg _ (by simpa using fun h1 h2 => h ⟨h1, h2⟩)]
      simpa [get_gpu_name_go, h] using get_gpu_name_go_eq x c es

/-- C6: model matching scans the database in declaration order, a descriptor
matches exactly when the masked identifier equals its pattern and the core
count reaches its threshold, the first match wins; on the shipped database the
shared pattern 0xb002/0xb003 resolves the 10-core probe to the first
(threshold 10) entry and the 5-core probe to the threshold 1 entry. -/
theorem gpu_name_first_match_wins :
    (∀ x c, get_gpu_name x c
      = match PRODUCT_VERSIONS.find?
            (fun e => decide (x &&& e.mask = e.id) && decide (e.min_cores ≤ c)) with
        | some e => e.name
        | none => "Unknown gpu_id")
    ∧ get_gpu_name 0xb002 10 = "Immortalis-G715"
    ∧ get_gpu_name 0xb002 5 = "Mali-G615"
    ∧ get_gpu_name 0xb003 10 = "Immortalis-G715"
    ∧ get_gpu_name 0xb003 5 = "Mali-G615" :=
  ⟨fun x c => get_gpu_name_go_eq x c PRODUCT_VERSIONS,
   by decide, by decide, by decide, by decide⟩

/-- With no pattern/mask match anywhere in the list, the identifier scan
returns the raw identifier unchanged. -/
theorem get_gpu_id_go_nomatch (x : Nat) :
    ∀ l : List product_entry, (∀ e ∈ l, x &&& e.mask ≠ e.id) → get_gpu_id_go x l = x
  | [], _ => rfl
  | e :: es, h => by
    have he := h e (List.mem_cons_self e es)
    simp only [get_gpu_id_go, if_neg he]
    exact get_gpu_id_go_nomatch x es fun f hf => h f (List.mem_cons_of_mem e hf)

/-- With no pattern/mask match anywhere in the list, the name scan falls
through to the sentinel string for every core count. -/
theorem get_gpu_name_go_nomatch (x c : Nat) :
    ∀ l : List product_entry,
      (∀ e ∈ l, x &&& e.mask ≠ e.id) → get_gpu_name_go x c l = "Unknown gpu_id"
  | [], _ => rfl
  | e :: es, h => by
    have he := h e (List.mem_cons_self e es)
    have hcond : ¬(x &&& e.mask = e.id ∧ e.min_cores ≤ c) := fun hc => he hc.1
    simp only [get_gpu_name_go, if_neg hcond]
    exact get_gpu_name_go_nomatch x c es fun f hf => h f (List.mem_cons_of_mem e hf)

/-- With no pattern/mask match anywhere in the list, the architecture scan
falls through to the sentinel string. -/
theorem get_architecture_name_go_nomatch (x : Nat) :
    ∀ l : List product_entry,
      (∀ e ∈ l, x &&& e.mask ≠ e.id) → get_architecture_name_go x l = "Unknown gpu_id"
  | [], _ => rfl
  | e :: es, h => by
    have he := h e (List.mem_cons_self e es)
    simp only [get_architecture_name_go, if_neg he]
    exact get_architecture_name_go_nomatch x es fun f hf => h f (List.mem_cons_of_mem e hf)

/-- C10: when no descriptor pattern/mask matches a raw identifier, the
canonical identifier function returns the raw identifier unchanged while the
name lookup (at every core count) and the architecture lookup return the
sentinel string. -/
theorem unmatched_identifier_behaviour (x : Nat)
    (h : ∀ e ∈ PRODUCT_VERSIONS, x &&& e.mask ≠ e.id) :
    get_gpu_id x = x
    ∧ (∀ c, get_gpu_name x c = "Unknown gpu_id")
    ∧ get_architecture_name x = "Unknown gpu_id" :=
  ⟨get_gpu_id_go_nomatch x PRODUCT_VERSIONS h,
   fun c => get_gpu_name_go_nomatch x c PRODUCT_VERSIONS h,
   get_architecture_name_go_nomatch x PRODUCT_VERSIONS h⟩

/-- Witness: the raw identifier 0xFFFF matches no descriptor under either
mask, keeps its raw value under normalization, and resolves both lookups to
the sentinel. -/
theorem unmatched_identifier_behaviour_witness :
    get_gpu_id 0xFFFF = 0xFFFF
    ∧ get_gpu_name 0xFFFF 16 = "Unknown gpu_id"
    ∧ get_architecture_name 0xFFFF = "Unknown gpu_id" :=
  ⟨(unmatched_identifier_behaviour 0xFFFF (by decide)).1,
   (unmatched_identifier_behaviour 0xFFFF (by decide)).2.1 16,
   (unmatched_identifier_behaviour 0xFFFF (by decide)).2.2⟩

/-! Theorems about the pre-r21 fixed-layout path. -/

/-- C2 (code defect): with a kernel-reported num_core_groups of 17, the
shader-core summation loop of init_props_pre_r21 dereferences
coherency_info.group[16], an index outside the base_max_coherent_groups (16)
descriptor slots that exist in the fixed-layout structure. -/
theorem pre_r21_core_loop_reads_beyond_group_array :
    16 ∈ coherency_loop_reads 17 ∧ ¬(16 < base_max_coherent_groups) :=
  ⟨by decide, by decide⟩

/-- C9: the pre-r21 path resolves engines and rates with both raw feature
words fixed at literal zero: the produced record does not depend on the
thread features register at all, each resolved field equals the resolver
evaluated at feature words 0, and the register-derived G52 engine formula
consequently evaluates to 0 for a pre-r21 G52 probe. -/
theorem pre_r21_resolves_with_zero_feature_words (props : uk_gpuprops) (tf : Nat) :
    init_props_pre_r21
        { props with raw_props := { props.raw_props with thread_features := tf } }
      = init_props_pre_r21 props
    ∧ (init_props_pre_r21 props).num_exec_engines
      = get_num_exec_engines (props.core_props.product_id % M32)
          (core_group_sum props.coherency_info) 0 0
    ∧ (init_props_pre_r21 props).num_fp32_fmas_per_cy
      = get_num_fp32_fmas (props.core_props.product_id % M32)
          (core_group_sum props.coherency_info) 0 0
    ∧ (init_props_pre_r21 props).num_texels_per_cy
      = get_num_texels (props.core_props.product_id % M32)
          (core_group_sum props.coherency_info) 0 0
    ∧ (init_props_pre_r21 props).num_pixels_per_cy
      = get_num_pixels (props.core_props.product_id % M32)
          (core_group_sum props.coherency_info) 0 0
    ∧ get_num_exec_engines 0x7002 8 0 0 = get_num_ee_g52 8 0 0
    ∧ get_num_ee_g52 8 0 0 = 0 :=
  ⟨rfl, rfl, rfl, rfl, rfl, by decide, by decide⟩

/-! Theorems about the dialect negotiation. -/

/-- C4: negotiation probes pre-r21 first and a non-zero pre-r21 response is
authoritative (the later probes are never consulted), gated by the version
floor accepting exactly major greater than 10 or major 10 with minor at least
2; the job-manager probe is consulted only when the pre-r21 response is zero,
the command-stream probe only when both earlier responses are zero and its
mere non-zero response is accepted; concretely (10,1) is rejected while
(10,2) and (11,0) are accepted. -/
theorem check_version_negotiation :
    (∀ r : probe_responses, r.pre_r21.is_set = true →
      check_version r = (is_supported r.pre_r21.major r.pre_r21.minor, iface_type.pre_r21))
    ∧ (∀ r r' : probe_responses, r.pre_r21 = r'.pre_r21 → r.pre_r21.is_set = true →
      check_version r = check_version r')
    ∧ (∀ r : probe_responses, r.pre_r21.is_set = false → r.post_r21_jm.is_set = true →
      check_version r
        = (is_supported r.post_r21_jm.major r.post_r21_jm.minor, iface_type.post_r21))
    ∧ (∀ r : probe_responses, r.pre_r21.is_set = false → r.post_r21_jm.is_set = false →
      check_version r = (r.post_r21_csf.is_set, iface_type.post_r21))
    ∧ (∀ major minor, is_supported major minor = true ↔ (10 < major ∨ (major = 10 ∧ 2 ≤ minor)))
    ∧ is_supported 10 1 = false
    ∧ is_supported 10 2 = true
    ∧ is_supported 11 0 = true := by
  refine ⟨?_, ?_, ?_, ?_, ?_, by decide, by decide, by decide⟩
  · intro r h
    simp [check_version, h]
  · intro r r' he h
    have h' : r'.pre_r21.is_set = true := he ▸ h
    simp [check_version, h, h', he]
  · intro r h hjm
    simp [check_version, h, hjm]
  · intro r h hjm
    simp [check_version, h, hjm]
  · intro major minor
    simp [is_supported]

/-- Witness: negotiation outcomes at the three concrete pre-r21 responses of
the specification scenario, and acceptance of a bare command-stream probe. -/
theorem check_version_negotiation_witness :
    check_version ⟨⟨10, 2⟩, ⟨0, 0⟩, ⟨0, 0⟩⟩ = (true, iface_type.pre_r21)
    ∧ check_version ⟨⟨10, 1⟩, ⟨99, 99⟩, ⟨99, 99⟩⟩ = (false, iface_type.pre_r21)
    ∧ check_version ⟨⟨11, 0⟩, ⟨0, 0⟩, ⟨0, 0⟩⟩ = (true, iface_type.pre_r21)
    ∧ check_version ⟨⟨0, 0⟩, ⟨0, 0⟩, ⟨1, 0⟩⟩ = (true, iface_type.post_r21) := by
  refine ⟨?_, ?_, ?_, ?_⟩
  · rw [check_version_negotiation.1 _ (by decide)]; decide
  · rw [check_version_negotiation.1 _ (by decide)]; decide
  · rw [check_version_negotiation.1 _ (by decide)]; decide
  · rw [check_version_negotiation.2.2.2.1 _ (by decide) (by decide)]; decide

/-! Theorems about claim C1: where the zero-engine failure lives. -/

/-- C1 refuted on the pre-r21 dialect: the concrete pre-r21 G52 probe
resolves 0 execution engines (the register-derived formula sees zero feature
words), yet the pre-r21 path still produces a capability record. -/
theorem pre_r21_zero_engine_record :
    (init_props_pre g52_pre_props).map gpuinfo.num_exec_engines = some 0
    ∧ (init_props_pre g52_pre_props).map gpuinfo.gpu_name = some "Mali-G52" :=
  ⟨by decide, by decide⟩

/-- C1 amended: a resolved execution-engine count of 0 makes the query fail
with no capability record only on the post-r21 decode path; the pre-r21 path
always produces a record once its property ioctl succeeded, whatever the
resolved engine count. -/
theorem zero_engines_fails_post_r21_only :
    (∀ buf ps, parseProps buf = some ps → resolved_engines ps = 0 → decode buf = none)
    ∧ (∀ props : uk_gpuprops, (init_props_pre props).isSome = true) := by
  constructor
  · intro buf ps hp h0
    simp [decode, hp, h0]
  · intro props
    rfl

/-- Witness: the empty stream parses to no fields, resolves 0 engines and is
rejected by the post-r21 decoder, while the pre-r21 G52 probe produces a
record. -/
theorem zero_engines_fails_post_r21_only_witness :
    decode [] = none ∧ (init_props_pre g52_pre_props).isSome = true :=
  ⟨zero_engines_fails_post_r21_only.1 [] [] (by decide) (by decide),
   zero_engines_fails_post_r21_only.2 g52_pre_props⟩

/-! Theorems about the post-r21 tag-value decoder. -/

/-- Every width code selects at least one byte. -/
theorem propWidth_pos : ∀ c, 0 < propWidth c
  | 0 => by decide
  | 1 => by decide
  | 2 => by decide
  | _ + 3 => show 0 < 8 by decide

/-- Canonical form of one record read: the reader fails on fewer than 4
header bytes or on a declared width exceeding the remaining bytes, and
otherwise yields the truncated id, the value bytes, and the cursor advanced
past 4 plus the width. -/
theorem next_eq (buf : List Nat) :
    next buf
      = if buf.length < 4 then none
        else if buf.length < 4 + propWidth (leBytes (buf.take 4) &&& 0b11) then none
        else
          some (((leBytes (buf.take 4) >>> 2) % 256,
                 leBytes ((buf.drop 4).take (propWidth (leBytes (buf.take 4) &&& 0b11)))),
                buf.drop (4 + propWidth (leBytes (buf.take 4) &&& 0b11))) := by
  unfold next read_bytes
  by_cases h4 : buf.length < 4
  · simp [h4]
  · by_cases hw : buf.length < 4 + propWidth (leBytes (buf.take 4) &&& 0b11)
    · have hd : buf.length - 4 < propWidth (leBytes (buf.take 4) &&& 0b11) := by omega
      simp [h4, hw, hd]
    · have hd : ¬buf.length - 4 < propWidth (leBytes (buf.take 4) &&& 0b11) := by omega
      simp [h4, hw, hd, List.drop_drop]

/-- A successful record read strictly shrinks the buffer. -/
theorem next_len {buf : List Nat} {p : Nat × Nat} {rest : List Nat}
    (h : next buf = some (p, rest)) : rest.length < buf.length := by
  rw [next_eq] at h
  by_cases h4 : buf.length < 4
  · simp [h4] at h
  · by_cases hw : buf.length < 4 + propWidth (leBytes (buf.take 4) &&& 0b11)
    · simp [h4, hw] at h
    · simp only [if_neg h4, if_neg hw, Option.some.injEq, Prod.mk.injEq] at h
      have hr : rest = buf.drop (4 + propWidth (leBytes (buf.take 4) &&& 0b11)) := h.2.symm
      subst hr
      simp only [List.length_drop]
      omega

/-- Unfolding equation of the parser step on positive fuel. -/
theorem parsePropsAux_succ (k b : Nat) (bs : List Nat) :
    parsePropsAux (k + 1) (b :: bs)
      = match next (b :: bs) with
        | none => none
        | some (p, rest) =>
          match parsePropsAux k rest with
          | none => none
          | some ps => some (p :: ps) :=
  rfl

/-- The parse result does not depend on the fuel once the fuel covers the
buffer length. -/
theorem parsePropsAux_irrel :
    ∀ (k1 k2 : Nat) (buf : List Nat), buf.length ≤ k1 → buf.length ≤ k2 →
      parsePropsAux k1 buf = parsePropsAux k2 buf
  | k1, k2, [], _, _ => by cases k1 <;> cases k2 <;> rfl
  | 0, _, b :: bs, h1, _ => by simp at h1
  | _ + 1, 0, b :: bs, _, h2 => by simp at h2
  | k1 + 1, k2 + 1, b :: bs, h1, h2 => by
    rw [parsePropsAux_succ, parsePropsAux_succ]
    rcases hn : next (b :: bs) with _ | ⟨p, rest⟩
    · rfl
    · have hl := next_len hn
      simp only [List.length_cons] at h1 h2 hl
      show (match parsePropsAux k1 rest with
            | none => none
            | some ps => some (p :: ps))
          = match parsePropsAux k2 rest with
            | none => none
            | some ps => some (p :: ps)
      rw [parsePropsAux_irrel k1 k2 rest (by omega) (by omega)]

/-- Unfolding law of the stream parser on a non-empty buffer. -/
theorem parseProps_cons (b : Nat) (bs : List Nat) :
    parseProps (b :: bs)
      = match next (b :: bs) with
        | none => none
        | some (p, rest) => Option.map (fun ps => p :: ps) (parseProps rest) := by
  show parsePropsAux (bs.length + 1) (b :: bs) = _
  rw [parsePropsAux_succ]
  rcases hn : next (b :: bs) with _ | ⟨p, rest⟩
  · rfl
  · have hl := next_len hn
    simp only [List.length_cons] at hl
    show (match parsePropsAux bs.length rest with
          | none => none
          | some ps => some (p :: ps))
        = Option.map (fun ps => p :: ps) (parseProps rest)
    rw [parsePropsAux_irrel bs.length rest.length rest (by omega) (Nat.le_refl _)]
    rcases hp : parseProps rest with _ | ps
    · have hp2 : parsePropsAux rest.length rest = none := hp
      rw [hp2]
      rfl
    · have hp2 : parsePropsAux rest.length rest = some ps := hp
      rw [hp2]
      rfl

/-- Unfolding equation of the truncation check on positive fuel. -/
theorem truncatedAux_succ (k b : Nat) (bs : List Nat) :
    truncatedAux (k + 1) (b :: bs)
      = if (b :: bs).length < 4 then true
        else if (b :: bs).length < 4 + propWidth (leBytes ((b :: bs).take 4) &&& 0b11) then
          true
        else truncatedAux k ((b :: bs).drop (4 + propWidth (leBytes ((b :: bs).take 4) &&& 0b11))) :=
  rfl

/-- The truncation verdict does not depend on the fuel once the fuel covers
the buffer length. -/
theorem truncatedAux_irrel :
    ∀ (k1 k2 : Nat) (buf : List Nat), buf.length ≤ k1 → buf.length ≤ k2 →
      truncatedAux k1 buf = truncatedAux k2 buf
  | k1, k2, [], _, _ => by cases k1 <;> cases k2 <;> rfl
  | 0, _, b :: bs, h1, _ => by simp at h1
  | _ + 1, 0, b :: bs, _, h2 => by simp at h2
  | k1 + 1, k2 + 1, b :: bs, h1, h2 => by
    rw [truncatedAux_succ, truncatedAux_succ]
    by_cases h4 : (b :: bs).length < 4
    · rw [if_pos h4, if_pos h4]
    · rw [if_neg h4, if_neg h4]
      by_cases hw : (b :: bs).length < 4 + propWidth (leBytes ((b :: bs).take 4) &&& 0b11)
      · rw [if_pos hw, if_pos hw]
      · rw [if_neg hw, if_neg hw]
        apply truncatedAux_irrel <;>
          · simp only [List.length_drop, List.length_cons] at *
            omega

/-- Unfolding law of the truncation predicate on a non-empty buffer. -/
theorem truncated_cons (b : Nat) (bs : List Nat) :
    truncated (b :: bs)
      = if (b :: bs).length < 4 then true
        else if (b :: bs).length < 4 + propWidth (leBytes ((b :: bs).take 4) &&& 0b11) then
          true
        else truncated ((b :: bs).drop (4 + propWidth (leBytes ((b :: bs).take 4) &&& 0b11))) := by
  show truncatedAux (bs.length + 1) (b :: bs) = _
  rw [truncatedAux_succ]
  by_cases h4 : (b :: bs).length < 4
  · rw [if_pos h4, if_pos h4]
  · rw [if_neg h4, if_neg h4]
    by_cases hw : (b :: bs).length < 4 + propWidth (leBytes ((b :: bs).take 4) &&& 0b11)
    · rw [if_pos hw, if_pos hw]
    · rw [if_neg hw, if_neg hw]
      exact truncatedAux_irrel bs.length _ _
        (by simp only [List.length_drop, List.length_cons]; omega) (Nat.le_refl _)

/-- The stream parser fails exactly on truncated streams. -/
theorem parse_none_iff_truncated :
    ∀ (n : Nat) (buf : List Nat), buf.length ≤ n →
      (parseProps buf = none ↔ truncated buf = true)
  | _, [], _ => by simp [parseProps, parsePropsAux, truncated, truncatedAux]
  | 0, b :: bs, h => by simp at h
  | n + 1, b :: bs, h => by
    by_cases h4 : (b :: bs).length < 4
    · have hnone : next (b :: bs) = none := by rw [next_eq, if_pos h4]
      rw [parseProps_cons, hnone, truncated_cons, if_pos h4]
      simp
    · by_cases hw : (b :: bs).length < 4 + propWidth (leBytes ((b :: bs).take 4) &&& 0b11)
      · have hnone : next (b :: bs) = none := by rw [next_eq, if_neg h4, if_pos hw]
        rw [parseProps_cons, hnone, truncated_cons, if_neg h4, if_pos hw]
        simp
      · have hsome : next (b :: bs)
            = some (((leBytes ((b :: bs).take 4) >>> 2) % 256,
                leBytes (((b :: bs).drop 4).take (propWidth (leBytes ((b :: bs).take 4) &&& 0b11)))),
                (b :: bs).drop (4 + propWidth (leBytes ((b :: bs).take 4) &&& 0b11))) := by
          rw [next_eq, if_neg h4, if_neg hw]
        rw [parseProps_cons, hsome, truncated_cons, if_neg h4, if_neg hw]
        have hlt : ((b :: bs).drop (4 + propWidth (leBytes ((b :: bs).take 4) &&& 0b11))).length ≤ n := by
          have hp := propWidth_pos (leBytes ((b :: bs).take 4) &&& 0b11)
          simp only [List.length_drop, List.length_cons] at *
          omega
        have ih := parse_none_iff_truncated n _ hlt
        simpa [Option.map_eq_none'] using ih

/-- C3 amended: the post-r21 stream parse fails exactly when the stream is
truncated, that is when fewer than 4 header bytes remain or the declared value
width exceeds the remaining bytes; a parse failure always aborts the decode
with no record.  No coherency-group-count condition exists: the group count
tag is read and discarded. -/
theorem decode_fails_exactly_on_truncation (buf : List Nat) :
    (parseProps buf = none ↔ truncated buf = true)
    ∧ (parseProps buf = none → decode buf = none) := by
  refine ⟨parse_none_iff_truncated buf.length buf (Nat.le_refl _), fun h => ?_⟩
  simp [decode, h]

/-- Witness: a stream whose header declares a 2-byte value with only 1 byte
remaining is truncated, fails to parse and produces no record. -/
theorem decode_fails_exactly_on_truncation_witness :
    truncated [5, 0, 0, 0, 7] = true ∧ decode [5, 0, 0, 0, 7] = none :=
  ⟨(decode_fails_exactly_on_truncation [5, 0, 0, 0, 7]).1.mp (by decide),
   (decode_fails_exactly_on_truncation [5, 0, 0, 0, 7]).2 (by decide)⟩

/-- C3 refuted: a stream reporting 5 coherency groups through the group count
tag (wire id 61) parses and decodes successfully into a capability record,
because the decoder discards that tag instead of failing. -/
theorem group_count_not_checked :
    parseProps group_count_5_stream = some [(61, 5), (1, 0x9000), (64, 3)]
    ∧ (decode group_count_5_stream).isSome = true :=
  ⟨by decide, by decide⟩

/-! Theorems about the encode/decode round trip. -/

/-- Disjoint bitwise OR of a value below 2 to the n with a value shifted up
by n places is addition. -/
theorem lor_shiftLeft_eq_add {n b x : Nat} (h : b < 2 ^ n) :
    b ||| (x <<< n) = 2 ^ n * x + b := by
  rw [Nat.shiftLeft_eq, Nat.mul_comm x (2 ^ n), Nat.or_comm, ← Nat.mul_add_lt_is_or h]

/-- The little-endian serialiser emits exactly the requested byte count. -/
theorem toLeBytes_length : ∀ (k v : Nat), (toLeBytes k v).length = k
  | 0, _ => rfl
  | k + 1, v => by simp [toLeBytes, toLeBytes_length k]

/-- Reading back a little-endian serialisation recovers the value when it
fits the serialised width. -/
theorem leBytes_toLeBytes : ∀ (k v : Nat), v < 2 ^ (8 * k) → leBytes (toLeBytes k v) = v
  | 0, v, h => by
    simp only [Nat.mul_zero, Nat.pow_zero, Nat.lt_one_iff] at h
    simp [toLeBytes, leBytes, h]
  | k + 1, v, h => by
    have hdiv : v / 256 < 2 ^ (8 * k) := by
      have hpow : (2 : Nat) ^ (8 * (k + 1)) = 2 ^ (8 * k) * 256 := by
        rw [Nat.mul_succ, Nat.pow_add]
      rw [Nat.div_lt_iff_lt_mul (by norm_num : 0 < 256)]
      rw [hpow] at h
      exact h
    simp only [toLeBytes, leBytes]
    rw [leBytes_toLeBytes k (v / 256) hdiv]
    rw [lor_shiftLeft_eq_add (by omega : v % 256 < 2 ^ 8)]
    have h8 : (2 : Nat) ^ 8 = 256 := by norm_num
    rw [h8]
    omega

/-- Reading an exact prefix succeeds and leaves the suffix. -/
theorem read_bytes_exact {n : Nat} {l rest : List Nat} (h : l.length = n) :
    read_bytes n (l ++ rest) = some (leBytes l, rest) := by
  unfold read_bytes
  rw [if_neg (by simp only [List.length_append, h]; omega)]
  rw [List.take_left' h, List.drop_left' h]

/-- Reading one encoded record recovers the value and the id reduced mod 256,
and leaves the rest of the stream aligned on the following record. -/
theorem next_encode {id w v : Nat} (rest : List Nat)
    (hid : id < 2 ^ 30) (hw : w < 4) (hv : v < 2 ^ (8 * propWidth w)) :
    next (encodeRecord id w v ++ rest) = some ((id % 256, v), rest) := by
  have hhdr : (id <<< 2) ||| w = 4 * id + w := by
    rw [Nat.or_comm, lor_shiftLeft_eq_add (show w < 2 ^ 2 by omega)]
    norm_num
  have hbound : (id <<< 2) ||| w < 2 ^ (8 * 4) := by
    rw [hhdr]
    have h30 : (2 : Nat) ^ 30 = 1073741824 := by norm_num
    have h32 : (2 : Nat) ^ (8 * 4) = 4294967296 := by norm_num
    omega
  have htake : (encodeRecord id w v ++ rest).take 4 = toLeBytes 4 ((id <<< 2) ||| w) := by
    unfold encodeRecord
    rw [List.append_assoc]
    exact List.take_left' (toLeBytes_length 4 _)
  have hdrop : (encodeRecord id w v ++ rest).drop 4 = toLeBytes (propWidth w) v ++ rest := by
    unfold encodeRecord
    rw [List.append_assoc]
    exact List.drop_left' (toLeBytes_length 4 _)
  have hlen : (encodeRecord id w v ++ rest).length = 4 + propWidth w + rest.length := by
    unfold encodeRecord
    simp [toLeBytes_length]
    omega
  have hhv : leBytes ((encodeRecord id w v ++ rest).take 4) = 4 * id + w := by
    rw [htake, leBytes_toLeBytes 4 _ hbound, hhdr]
  have hand : (4 * id + w) &&& 3 = w := by
    have h3 : (3 : Nat) = 2 ^ 2 - 1 := by norm_num
    rw [h3, Nat.and_pow_two_sub_one_eq_mod]
    have h4 : (2 : Nat) ^ 2 = 4 := by norm_num
    rw [h4]
    omega
  have hshift : (4 * id + w) >>> 2 = id := by
    rw [Nat.shiftRight_eq_div_pow]
    have h4 : (2 : Nat) ^ 2 = 4 := by norm_num
    rw [h4]
    omega
  have hdropall : (encodeRecord id w v ++ rest).drop (4 + propWidth w) = rest := by
    unfold encodeRecord
    exact List.drop_left' (by simp [toLeBytes_length])
  rw [next_eq, hhv, hand, hlen, hdrop, hdropall, hshift]
  rw [if_neg (by omega), if_neg (by omega)]
  rw [List.take_left' (toLeBytes_length _ _), leBytes_toLeBytes _ v hv]

/-- Round trip at the record-stream level: parsing the encoding of any
well-formed triple sequence yields every value exactly, each paired with its
id reduced mod 256. -/
theorem prop_stream_roundtrip :
    ∀ ts : List (Nat × Nat × Nat), wellFormed ts →
      parseProps (encodeStream ts) = some (ts.map fun t => (t.1 % 256, t.2.2))
  | [], _ => rfl
  | (id, w, v) :: ts, h => by
    have ht := h (id, w, v) (List.mem_cons_self _ _)
    have hts : wellFormed ts := fun t htm => h t (List.mem_cons_of_mem _ htm)
    obtain ⟨b, bs, hbs⟩ : ∃ b bs, encodeRecord id w v ++ encodeStream ts = b :: bs :=
      ⟨_, _, rfl⟩
    show parseProps (encodeRecord id w v ++ encodeStream ts) = _
    rw [hbs, parseProps_cons, ← hbs]
    rw [next_encode (encodeStream ts) ht.1 ht.2.1 ht.2.2]
    show Option.map (fun ps => (id % 256, v) :: ps) (parseProps (encodeStream ts)) = _
    rw [prop_stream_roundtrip ts hts]
    rfl

/-- C5 amended: encoding well-formed (id, width, value) triples with the
documented header packing and decoding reproduces every value exactly and in
order, with stream alignment preserved across arbitrary ids, but each id is
reproduced only mod 256 because the decoder narrows it into the 8-bit
property code type; for sequences whose ids are below 256 the round trip is
exact. -/
theorem prop_stream_roundtrip_mod256 (ts : List (Nat × Nat × Nat)) (h : wellFormed ts) :
    parseProps (encodeStream ts) = some (ts.map fun t => (t.1 % 256, t.2.2))
    ∧ ((∀ t ∈ ts, t.1 < 256) →
        parseProps (encodeStream ts) = some (ts.map fun t => (t.1, t.2.2))) := by
  refine ⟨prop_stream_roundtrip ts h, fun hsmall => ?_⟩
  rw [prop_stream_roundtrip ts h]
  congr 1
  apply List.map_congr_left
  intro t htm
  simp [Nat.mod_eq_of_lt (hsmall t htm)]

/-- Witness: a two-record stream with an 8-byte value and an id of 999
round-trips to values intact and ids mod 256, and a recognized one-record
stream with id 82 round-trips exactly. -/
theorem prop_stream_roundtrip_mod256_witness :
    parseProps (encodeStream [(1, 1, 0x9000), (999, 3, 123456789)])
      = some [(1, 0x9000), (231, 123456789)]
    ∧ parseProps (encodeStream [(82, 0, 2)]) = some [(82, 2)] :=
  ⟨((prop_stream_roundtrip_mod256 [(1, 1, 0x9000), (999, 3, 123456789)] (by decide)).1).trans
      (by decide),
   ((prop_stream_roundtrip_mod256 [(82, 0, 2)] (by decide)).2 (by decide)).trans (by decide)⟩

/-- C5 refuted: the decoder narrows the 30-bit header id into the 8-bit
property code, so the unrecognized id 257 decodes as id 1 rather than being
discarded, and its value lands in the product id field. -/
theorem roundtrip_id_truncation :
    parseProps (encodeStream [(257, 0, 7)]) = some [(1, 7)]
    ∧ parseProps (encodeStream [(257, 0, 7)]) ≠ some [(257, 7)]
    ∧ (decode_fields [(1, 7)]).1.gpu_id = 7 :=
  ⟨by decide, by decide, by decide⟩

end libgpuinfo
